import Mathlib

/-!
Verification of the Azure DevOps inbound webhook handler
(`zerver/webhooks/azuredevops/view.py`).

The handler body is embedded shallowly: JSON values are an inductive type,
Python dictionary subscripting and string concatenation are partial
operations returning `Except`, and the handler returns the trace of
invocations of the delivery collaborator `check_send_webhook_message`
together with its outcome.  The framework collaborators that live outside
this repository slice (`REQ` body binding, `json_success`, `json_error`)
are modelled from the specification and marked as such in their doc
comments.
-/

namespace AzureDevops

/-- JSON values, as produced by decoding the request body. -/
inductive Json where
  | str (s : String)
  | num (n : Int)
  | jbool (b : Bool)
  | null
  | arr (xs : List Json)
  | obj (kvs : List (String × Json))

/-- Errors the handler body can raise: a Python `KeyError` (subscripting a
dictionary at an absent key; carries the key name) or a Python `TypeError`
(subscripting a non-dictionary, or adding a non-string to a string). -/
inductive HandlerError where
  | keyError (field : String)
  | typeError
deriving Repr, DecidableEq

/-- Python subscripting `v[k]` for a string key: succeeds on a dictionary
that has the key, raises `KeyError k` on a dictionary without it, and
raises `TypeError` on any non-dictionary value. -/
def Json.subscript : Json → String → Except HandlerError Json
  | .obj kvs, k =>
    match kvs.lookup k with
    | some v => .ok v
    | none => .error (.keyError k)
  | _, _ => .error .typeError

/-- Python string concatenation `s + v`: defined only when `v` is a string,
otherwise it raises `TypeError`. -/
def pyStrAdd (s : String) : Json → Except HandlerError String
  | .str m => .ok (s ++ m)
  | _ => .error .typeError

/-- The fixed preamble of the outbound message (source line 22). -/
def preamble : String := "A new build from Azure DevOps! :smile:"

/-- The default of the `topic` request variable (source line 18:
`topic: str=REQ(default='coverage')`). -/
def default_topic : String := "coverage"

/-- One invocation of the delivery collaborator
`check_send_webhook_message(request, user_profile, topic, body)`.
The opaque request context is omitted; the caller identity is kept as an
opaque string. -/
structure DeliveryCall where
  user_profile : String
  topic : String
  body : String
deriving Repr, DecidableEq

/-- Shallow embedding of the body of `api_azuredevops_webhook` (source
lines 15-32).  `topicParam` is the request's `topic` variable when
supplied; the `REQ` default makes it `"coverage"` otherwise.  The first
component is the trace of invocations of the delivery collaborator, the
second the outcome of the handler body (`.ok ()` reaching
`return json_success()`, `.error e` an uncaught Python exception). -/
def api_azuredevops_webhook (user_profile : String) (payload : Json)
    (topicParam : Option String) : List DeliveryCall × Except HandlerError Unit :=
  let topic := topicParam.getD default_topic
  let body := preamble
  match payload.subscript "detailedMessage" with
  | .error e => ([], .error e)
  | .ok dm =>
    match dm.subscript "markdown" with
    | .error e => ([], .error e)
    | .ok md =>
      match pyStrAdd "\n" md with
      | .error e => ([], .error e)
      | .ok body_template =>
        let body := body ++ body_template
        ([{ user_profile := user_profile, topic := topic, body := body }], .ok ())

/-- Modelled from the spec: the generic success envelope returned by
`json_success()` (not under src/), equivalent to
`result: "success", msg: ""`, carrying no payload data. -/
structure SuccessEnvelope where
  result : String
  msg : String
deriving Repr, DecidableEq

/-- Modelled from the spec: `json_success` returns the generic success
envelope with no payload data. -/
def json_success : SuccessEnvelope := { result := "success", msg := "" }

/-- Modelled from the spec: the structured error envelope of the shared
API error convention, carrying a human-readable message and an error
code. -/
structure ErrorEnvelope where
  result : String
  msg : String
  code : String
deriving Repr, DecidableEq

/-- Modelled from the spec: the framework surfaces a handler failure as an
HTTP 400-equivalent structured error envelope with a descriptive message
naming the missing field (`json_error` and the shared error convention
are not under src/). -/
def json_error : HandlerError → ErrorEnvelope
  | .keyError f =>
    { result := "error", msg := "Malformed payload: missing key " ++ f,
      code := "BAD_REQUEST" }
  | .typeError =>
    { result := "error", msg := "Malformed payload", code := "BAD_REQUEST" }

/-- An HTTP response: a status code with either a success or an error
envelope. -/
inductive HttpResponse where
  | ok (status : Nat) (env : SuccessEnvelope)
  | err (status : Nat) (env : ErrorEnvelope)
deriving Repr, DecidableEq

/-- Modelled from the spec: the endpoint as seen by the HTTP caller after
authentication — the framework runs the handler body and converts its
outcome to an HTTP response (200 success envelope, or 400-class structured
error envelope). -/
def webhookEndpoint (user_profile : String) (payload : Json)
    (topicParam : Option String) : List DeliveryCall × HttpResponse :=
  match api_azuredevops_webhook user_profile payload topicParam with
  | (calls, .ok ()) => (calls, .ok 200 json_success)
  | (calls, .error e) => (calls, .err 400 (json_error e))

/-- Modelled from the spec: the request-variable collaborator
(`REQ(argument_type='body')` with the declared shape
`Dict[str, Iterable[Dict[str, Any]]]`, "a mapping of string to an iterable
of mappings") decodes the JSON body and, per the spec, applies the schema
permissively: any JSON object is accepted, and presence of the nested
`detailedMessage.markdown` field is not checked at validation time. -/
def req_body_accepts : Json → Bool
  | .obj _ => true
  | _ => false

/-- The canonical valid payload used by concrete witnesses:
`detailedMessage.markdown = "Build #42 passed"`. -/
def samplePayload : Json :=
  .obj [("detailedMessage", .obj [("markdown", .str "Build #42 passed")])]

/-- Running the handler on a payload whose `detailedMessage.markdown` is
the string `m` delivers exactly one message whose body is the preamble, a
newline and `m`, and succeeds. -/
theorem handler_run_of_markdown (u : String) (p dm : Json) (t : Option String)
    (m : String)
    (hdm : p.subscript "detailedMessage" = .ok dm)
    (hmd : dm.subscript "markdown" = .ok (.str m)) :
    api_azuredevops_webhook u p t =
      ([{ user_profile := u, topic := t.getD default_topic,
          body := preamble ++ "\n" ++ m }], .ok ()) := by
  simp [api_azuredevops_webhook, hdm, hmd, pyStrAdd, String.append_assoc]

/-- The number of delivery-collaborator invocations is one exactly when
the handler body succeeds and zero exactly when it fails. -/
theorem handler_calls_length (u : String) (p : Json) (t : Option String) :
    (api_azuredevops_webhook u p t).1.length =
      match (api_azuredevops_webhook u p t).2 with
      | .ok _ => 1
      | .error _ => 0 := by
  unfold api_azuredevops_webhook
  cases hdm : p.subscript "detailedMessage" with
  | error e => simp
  | ok dm =>
    cases hmd : dm.subscript "markdown" with
    | error e => simp [hmd]
    | ok md =>
      cases hb : pyStrAdd "\n" md with
      | error e => simp [hmd, hb]
      | ok b => simp [hmd, hb]

/-- The error envelope always carries a non-empty human-readable message. -/
theorem json_error_msg_ne_empty (e : HandlerError) : (json_error e).msg ≠ "" := by
  cases e with
  | keyError f =>
    intro hcontra
    have hlen := congrArg String.length hcontra
    simp [String.length_append, json_error] at hlen
    exact absurd hlen.1 (by decide)
  | typeError =>
    intro hcontra
    exact absurd hcontra (by decide)

/-- A second payload agreeing with `samplePayload` on
`detailedMessage.markdown` but differing in every other respect. -/
def otherPayload : Json :=
  .obj [("eventType", .str "build.complete"),
        ("detailedMessage",
          .obj [("markdown", .str "Build #42 passed"),
                ("text", .str "ignored")])]

/-- A payload whose `detailedMessage.markdown` is present but is a number,
not a string. -/
def nonStringPayload : Json :=
  .obj [("detailedMessage", .obj [("markdown", .num 7)])]

/-- Two successive invocations of the handler with the same request data;
the handler holds no state across requests, so each invocation runs
independently and their delivery traces concatenate. -/
def invoke_twice (u : String) (p : Json) (t : Option String) :
    List DeliveryCall :=
  (api_azuredevops_webhook u p t).1 ++ (api_azuredevops_webhook u p t).1

/-- C1: for every payload containing a key `detailedMessage` whose value
contains a key `markdown` with text value `m`, the message body the
handler composes equals the fixed preamble
`"A new build from Azure DevOps! :smile:"` followed by a single newline
followed by `m`, verbatim, with no escaping, no truncation and no other
transformation. -/
theorem composed_body_verbatim (u : String) (p dm : Json) (t : Option String)
    (m : String)
    (hdm : p.subscript "detailedMessage" = .ok dm)
    (hmd : dm.subscript "markdown" = .ok (.str m)) :
    (api_azuredevops_webhook u p t).1 =
      [{ user_profile := u, topic := t.getD default_topic,
         body := preamble ++ "\n" ++ m }] := by
  rw [handler_run_of_markdown u p dm t m hdm hmd]

/-- Witness for C1 at a concrete payload. -/
theorem composed_body_verbatim_witness :
    (api_azuredevops_webhook "iago" samplePayload none).1 =
      [{ user_profile := "iago", topic := "coverage",
         body := "A new build from Azure DevOps! :smile:\nBuild #42 passed" }] :=
  composed_body_verbatim "iago" samplePayload
    (.obj [("markdown", .str "Build #42 passed")]) none "Build #42 passed"
    rfl rfl

/-- C2: for every payload missing the `detailedMessage` key, and for every
payload whose `detailedMessage` mapping lacks the `markdown` key, the
endpoint returns an HTTP 400-equivalent structured error envelope whose
message names the missing field, and the delivery collaborator is never
invoked. -/
theorem missing_field_400_no_delivery (u : String) (t : Option String) :
    (∀ kvs, kvs.lookup "detailedMessage" = none →
      webhookEndpoint u (.obj kvs) t =
        ([], .err 400 (json_error (.keyError "detailedMessage")))) ∧
    (∀ kvs dkvs, kvs.lookup "detailedMessage" = some (.obj dkvs) →
      dkvs.lookup "markdown" = none →
      webhookEndpoint u (.obj kvs) t =
        ([], .err 400 (json_error (.keyError "markdown")))) := by
  constructor
  · intro kvs h
    simp [webhookEndpoint, api_azuredevops_webhook, Json.subscript, h]
  · intro kvs dkvs h1 h2
    simp [webhookEndpoint, api_azuredevops_webhook, Json.subscript, h1, h2]

/-- Witness for C2 at concrete payloads. -/
theorem missing_field_400_no_delivery_witness :
    webhookEndpoint "iago" (.obj []) none =
      ([], .err 400 (json_error (.keyError "detailedMessage"))) ∧
    webhookEndpoint "iago" (.obj [("detailedMessage", .obj [])]) none =
      ([], .err 400 (json_error (.keyError "markdown"))) :=
  ⟨(missing_field_400_no_delivery "iago" none).1 [] rfl,
   (missing_field_400_no_delivery "iago" none).2
     [("detailedMessage", .obj [])] [] rfl rfl⟩

/-- C3: for every request with a valid payload and no topic parameter, the
delivery collaborator is invoked with the default topic `"coverage"` and
the composed body, and a success envelope is returned. -/
theorem default_topic_delivery (u : String) (p dm : Json) (m : String)
    (hdm : p.subscript "detailedMessage" = .ok dm)
    (hmd : dm.subscript "markdown" = .ok (.str m)) :
    webhookEndpoint u p none =
      ([{ user_profile := u, topic := "coverage",
          body := preamble ++ "\n" ++ m }], .ok 200 json_success) := by
  simp [webhookEndpoint, handler_run_of_markdown u p dm none m hdm hmd,
    default_topic]

/-- Witness for C3: the payload of the spec's concrete scenario, with no
topic parameter, delivers with topic `"coverage"` and the exact body
`"A new build from Azure DevOps! :smile:\nBuild #42 passed"`. -/
theorem default_topic_delivery_witness :
    webhookEndpoint "iago" samplePayload none =
      ([{ user_profile := "iago", topic := "coverage",
          body := "A new build from Azure DevOps! :smile:\nBuild #42 passed" }],
       .ok 200 json_success) :=
  default_topic_delivery "iago" samplePayload
    (.obj [("markdown", .str "Build #42 passed")]) "Build #42 passed" rfl rfl

/-- C4: for every request that supplies a topic parameter, the delivery
collaborator is invoked with exactly that supplied topic text, unchanged. -/
theorem supplied_topic_passed_through (u s : String) (p dm : Json)
    (m : String)
    (hdm : p.subscript "detailedMessage" = .ok dm)
    (hmd : dm.subscript "markdown" = .ok (.str m)) :
    (webhookEndpoint u p (some s)).1 =
      [{ user_profile := u, topic := s, body := preamble ++ "\n" ++ m }] := by
  simp [webhookEndpoint, handler_run_of_markdown u p dm (some s) m hdm hmd]

/-- Witness for C4 with topic parameter `"ci-results"`. -/
theorem supplied_topic_passed_through_witness :
    (webhookEndpoint "iago" samplePayload (some "ci-results")).1 =
      [{ user_profile := "iago", topic := "ci-results",
         body := "A new build from Azure DevOps! :smile:\nBuild #42 passed" }] :=
  supplied_topic_passed_through "iago" "ci-results" samplePayload
    (.obj [("markdown", .str "Build #42 passed")]) "Build #42 passed" rfl rfl

/-- C5: every successful invocation performs exactly one call to the
delivery collaborator and every failing invocation performs none:
delivery is all-or-nothing per request. -/
theorem delivery_all_or_nothing (u : String) (p : Json) (t : Option String) :
    (webhookEndpoint u p t).1.length =
      match (webhookEndpoint u p t).2 with
      | .ok _ _ => 1
      | .err _ _ => 0 := by
  unfold webhookEndpoint api_azuredevops_webhook
  cases hdm : p.subscript "detailedMessage" with
  | error e => simp
  | ok dm =>
    cases hmd : dm.subscript "markdown" with
    | error e => simp [hmd]
    | ok md =>
      cases hb : pyStrAdd "\n" md with
      | error e => simp [hmd, hb]
      | ok b => simp [hmd, hb]

/-- C6: the request body is read through a validation collaborator whose
declared schema ("a mapping of string to an iterable of mappings") is
applied permissively, so payloads lacking `detailedMessage.markdown` pass
validation and presence of the nested field is enforced only at use time,
by the handler's own subscripting. -/
theorem markdown_enforced_at_use_time :
    req_body_accepts (.obj []) = true ∧
    (api_azuredevops_webhook "iago" (.obj []) none).2 =
      .error (.keyError "detailedMessage") ∧
    req_body_accepts (.obj [("detailedMessage", .obj [])]) = true ∧
    (api_azuredevops_webhook "iago"
        (.obj [("detailedMessage", .obj [])]) none).2 =
      .error (.keyError "markdown") ∧
    req_body_accepts samplePayload = true :=
  ⟨rfl, rfl, rfl, rfl, rfl⟩

/-- C7: on success the endpoint returns HTTP 200 with the generic success
envelope `result = "success", msg = ""` and no payload data; on failure it
returns an HTTP 400-class structured error envelope with a non-empty
human-readable message and an error code. -/
theorem response_envelopes (u : String) (p : Json) (t : Option String) :
    json_success = { result := "success", msg := "" } ∧
    ((webhookEndpoint u p t).2 = .ok 200 json_success ∨
      ∃ e, (webhookEndpoint u p t).2 = .err 400 (json_error e) ∧
        (json_error e).msg ≠ "" ∧ (json_error e).code = "BAD_REQUEST") := by
  refine ⟨rfl, ?_⟩
  unfold webhookEndpoint api_azuredevops_webhook
  cases hdm : p.subscript "detailedMessage" with
  | error e => exact .inr ⟨e, rfl, json_error_msg_ne_empty e, by cases e <;> rfl⟩
  | ok dm =>
    cases hmd : dm.subscript "markdown" with
    | error e =>
      simp only [hmd]
      exact .inr ⟨e, rfl, json_error_msg_ne_empty e, by cases e <;> rfl⟩
    | ok md =>
      cases hb : pyStrAdd "\n" md with
      | error e =>
        simp only [hmd, hb]
        exact .inr ⟨e, rfl, json_error_msg_ne_empty e, by cases e <;> rfl⟩
      | ok b =>
        simp only [hmd, hb]
        exact .inl trivial

/-- C8: the handler is not idempotent: invoking it twice with the same
valid payload produces two separate delivery calls, with no deduplication
of the repeated payload. -/
theorem no_dedup_two_deliveries (u : String) (p : Json) (t : Option String)
    (h : (api_azuredevops_webhook u p t).2 = .ok ()) :
    ∃ c : DeliveryCall, (api_azuredevops_webhook u p t).1 = [c] ∧
      invoke_twice u p t = [c, c] := by
  have hlen := handler_calls_length u p t
  rw [h] at hlen
  simp only [] at hlen
  obtain ⟨c, hc⟩ := List.length_eq_one.mp hlen
  refine ⟨c, hc, ?_⟩
  rw [invoke_twice, hc]
  rfl

/-- Witness for C8 at a concrete valid payload. -/
theorem no_dedup_two_deliveries_witness :
    ∃ c : DeliveryCall,
      (api_azuredevops_webhook "iago" samplePayload none).1 = [c] ∧
      invoke_twice "iago" samplePayload none = [c, c] :=
  no_dedup_two_deliveries "iago" samplePayload none rfl

/-- C9: the composed body depends only on the value at
`detailedMessage.markdown`: two invocations whose payloads agree on that
value pass identical bodies to the delivery collaborator, regardless of
the topic parameter, the caller identity or any other payload field. -/
theorem body_depends_only_on_markdown (u1 u2 : String) (p1 p2 dm1 dm2 : Json)
    (t1 t2 : Option String) (m : String)
    (h1 : p1.subscript "detailedMessage" = .ok dm1)
    (h1m : dm1.subscript "markdown" = .ok (.str m))
    (h2 : p2.subscript "detailedMessage" = .ok dm2)
    (h2m : dm2.subscript "markdown" = .ok (.str m)) :
    (api_azuredevops_webhook u1 p1 t1).1.map DeliveryCall.body =
      (api_azuredevops_webhook u2 p2 t2).1.map DeliveryCall.body := by
  rw [handler_run_of_markdown u1 p1 dm1 t1 m h1 h1m,
    handler_run_of_markdown u2 p2 dm2 t2 m h2 h2m]
  rfl

/-- Witness for C9: different users, topics and extra payload fields, same
markdown value, identical delivered bodies. -/
theorem body_depends_only_on_markdown_witness :
    (api_azuredevops_webhook "iago" samplePayload none).1.map
        DeliveryCall.body =
      (api_azuredevops_webhook "hamlet" otherPayload
          (some "ci-results")).1.map DeliveryCall.body :=
  body_depends_only_on_markdown "iago" "hamlet" samplePayload otherPayload
    (.obj [("markdown", .str "Build #42 passed")])
    (.obj [("markdown", .str "Build #42 passed"), ("text", .str "ignored")])
    none (some "ci-results") "Build #42 passed" rfl rfl rfl rfl

/-- C10: for every payload whose `detailedMessage.markdown` is present but
not a text string, the string concatenation fails with a `TypeError`, the
handler takes the error path and the delivery collaborator is never
invoked. -/
theorem non_string_markdown_no_delivery (u : String) (p dm v : Json)
    (t : Option String)
    (hdm : p.subscript "detailedMessage" = .ok dm)
    (hmd : dm.subscript "markdown" = .ok v)
    (hns : ∀ s, v ≠ .str s) :
    api_azuredevops_webhook u p t = ([], .error .typeError) := by
  cases v
  case str s => exact absurd rfl (hns s)
  all_goals simp [api_azuredevops_webhook, hdm, hmd, pyStrAdd]

/-- Witness for C10: a payload whose markdown value is the number 7. -/
theorem non_string_markdown_no_delivery_witness :
    api_azuredevops_webhook "iago" nonStringPayload none =
      ([], .error .typeError) :=
  non_string_markdown_no_delivery "iago" nonStringPayload
    (.obj [("markdown", .num 7)]) (.num 7) none rfl rfl
    (fun _ h => Json.noConfusion h)

end AzureDevops
